import Mathlib

/-!
Shallow embedding of `src/sempy_labs/_job_scheduler.py` and
`src/sempy_labs/_notebooks.py` (job-scheduler and notebook façades of the
semantic-link-labs fork).  Python strings are modelled as `List Char`
(`PyStr`), optional values as `Option`, JSON-ish payload values as `JVal`,
and each façade function as a pure Lean function that also returns the list
of side effects (name resolutions and HTTP calls) it would perform, in
order, so that "fails before any network call" is expressible.
-/

/-- Python strings are modelled as lists of characters. -/
abbrev PyStr := List Char

/-- The exceptions the modelled functions can raise.  `typeErrorNoneComparison`
models Python's `TypeError` from comparing `None` with an `int`. -/
inductive PyError
  | valueErrorInvalidType
  | valueErrorInterval
  | valueErrorTimes
  | valueErrorAlreadyExists
  | typeErrorNoneComparison
  | fabricHTTPError (status : Nat)
  | indexError
deriving DecidableEq, Repr

/-- JSON-ish values appearing in schedule payloads. -/
inductive JVal
  | s (v : PyStr)
  | i (v : Int)
  | b (v : Bool)
  | null
  | strList (vs : List PyStr)
deriving DecidableEq, Repr

/-- The `times` argument of the schedule functions: Python `None`, a string,
or a list of strings (`times : str | list = None`). -/
inductive PyTimes
  | none
  | str (s : PyStr)
  | list (xs : List PyStr)
deriving DecidableEq, Repr

/-- The single-quote character, used by Python `repr` of strings. -/
def quoteChar : Char := Char.ofNat 39

/-- Python `str` of a list of strings, e.g. `str(["08:00"]) = "['08:00']"`
(exact for strings without quotes or escapes, which covers hh:mm slots). -/
def pyStrOfStrList (xs : List PyStr) : PyStr :=
  '[' :: (List.intercalate (", ".toList)
    (xs.map (fun s => quoteChar :: (s ++ [quoteChar])))) ++ [']']

/-- Python `str(times)` for the three shapes of the `times` argument. -/
def pyStrOfTimes : PyTimes → PyStr
  | .none => "None".toList
  | .str s => s
  | .list xs => pyStrOfStrList xs

/-- The JSON value the raw `times` Python object turns into inside a payload
(Weekly stores `times` unconverted). -/
def timesToJVal : PyTimes → JVal
  | .none => .null
  | .str s => .s s
  | .list xs => .strList xs

/-- Python `s.lower()`. -/
def pyLower (s : PyStr) : PyStr := s.map Char.toLower

/-- Python `s.split(c)` for a one-character separator: always returns at
least one piece, empty pieces included. -/
def splitOnChar (c : Char) : PyStr → List PyStr
  | [] => [[]]
  | x :: xs =>
    match splitOnChar c xs with
    | [] => [[]]
    | h :: t => if x = c then [] :: h :: t else (x :: h) :: t

/-- `response.headers.get("Location").split("/")[-1]`: the last
`/`-separated segment of the `Location` header
(`_job_scheduler.py` lines 269 and 439). -/
def locationIdFromHeader (s : PyStr) : PyStr := (splitOnChar '/' s).getLastD []

/-- An optional Python string as a JSON payload value (`None` becomes null). -/
def optStr : Option PyStr → JVal
  | Option.none => .null
  | some s => .s s

/-- An optional Python int as a JSON payload value (`None` becomes null). -/
def optInt : Option Int → JVal
  | Option.none => .null
  | some n => .i n

/-- A schedule payload: `{"enabled": ..., "configuration": {...}}`, the
configuration dict modelled as an insertion-ordered association list. -/
structure SchedulePayload where
  enabled : Bool
  configuration : List (String × JVal)
deriving DecidableEq, Repr

/-- `__create_item_schedule_payload` (`_job_scheduler.py` lines 18-57): the
base configuration always holds startDateTime, endDateTime, localTimeZoneId
and type; the `match schedule_config_type.lower()` then appends `interval`
(cron), `str(times)` (daily) or raw `times` plus `weekdays` (weekly). -/
def __create_item_schedule_payload (enabled : Bool)
    (start_date_time end_date_time local_time_zone_id : Option PyStr)
    (schedule_config_type : PyStr) (interval : Option Int)
    (weekdays : Option PyStr) (times : PyTimes) : SchedulePayload :=
  let base : List (String × JVal) :=
    [("startDateTime", optStr start_date_time),
     ("endDateTime", optStr end_date_time),
     ("localTimeZoneId", optStr local_time_zone_id),
     ("type", JVal.s schedule_config_type)]
  let config :=
    if pyLower schedule_config_type = "cron".toList then
      base ++ [("interval", optInt interval)]
    else if pyLower schedule_config_type = "daily".toList then
      base ++ [("times", JVal.s (pyStrOfTimes times))]
    else if pyLower schedule_config_type = "weekly".toList then
      base ++ [("times", timesToJVal times), ("weekdays", optStr weekdays)]
    else base
  ⟨enabled, config⟩

/-- Side effects of the job-scheduler façade, in the order performed:
name resolutions and HTTP calls. -/
inductive Effect
  | resolveWorkspace
  | resolveItem
  | resolveItemType
  | apiPost (payload : SchedulePayload)
  | apiPatch (payload : SchedulePayload)
  | apiPostRunJob
deriving DecidableEq, Repr

/-- Python `schedule_config_type.lower() in {'cron', 'daily', 'weekly'}`
(lines 408-409 and 495-496). -/
def isValidScheduleType (sct : PyStr) : Bool :=
  (pyLower sct == "cron".toList) || (pyLower sct == "daily".toList)
    || (pyLower sct == "weekly".toList)

/-- Line 411 / 498: `if interval is not None and interval < 1 or
interval > 5270400:` — Python precedence groups this as
`(interval is not None and interval < 1) or (interval > 5270400)`, so when
`interval` is `None` the right disjunct compares `None > 5270400` and
raises a `TypeError`. -/
def intervalCheck (interval : Option Int) : Option PyError :=
  match interval with
  | Option.none => some .typeErrorNoneComparison
  | some n =>
    if n < 1 ∨ n > 5270400 then some .valueErrorInterval else Option.none

/-- Line 413 / 500: `len(str(times).split('.')) > 100` — the number of
`.`-separated chunks of the textual rendering of `times`. -/
def timesCheckFires (times : PyTimes) : Bool :=
  (splitOnChar '.' (pyStrOfTimes times)).length > 100

/-- The eager validations shared by `create_item_schedule` (lines 408-414)
and `update_item_schedule` (lines 495-501), in source order; returns the
first error raised, if any. -/
def scheduleValidate (sct : PyStr) (interval : Option Int)
    (times : PyTimes) : Option PyError :=
  if !(isValidScheduleType sct) then some .valueErrorInvalidType
  else
    match intervalCheck interval with
    | some e => some e
    | Option.none =>
      if timesCheckFires times then some .valueErrorTimes else Option.none

/-- `create_item_schedule` (lines 355-440): validations, then payload
construction, then workspace/item resolution and the POST; on success it
returns the last segment of the response's `Location` header.  The first
component is the list of resolution/HTTP effects actually performed. -/
def create_item_schedule (schedule_config_type : PyStr) (enabled : Bool)
    (start_date_time end_date_time local_time_zone_id : Option PyStr)
    (interval : Option Int) (weekdays : Option PyStr) (times : PyTimes)
    (locationHeader : PyStr) : List Effect × Except PyError PyStr :=
  match scheduleValidate schedule_config_type interval times with
  | some e => ([], .error e)
  | Option.none =>
    let payload := __create_item_schedule_payload enabled start_date_time
      end_date_time local_time_zone_id schedule_config_type interval
      weekdays times
    ([Effect.resolveWorkspace, Effect.resolveItem, Effect.apiPost payload],
     .ok (locationIdFromHeader locationHeader))

/-- `update_item_schedule` (lines 443-520): the same validations and payload
construction as create, then resolution and a PATCH of the whole
configuration; returns nothing. -/
def update_item_schedule (schedule_config_type : PyStr) (enabled : Bool)
    (start_date_time end_date_time local_time_zone_id : Option PyStr)
    (interval : Option Int) (weekdays : Option PyStr) (times : PyTimes) :
    List Effect × Except PyError Unit :=
  match scheduleValidate schedule_config_type interval times with
  | some e => ([], .error e)
  | Option.none =>
    let payload := __create_item_schedule_payload enabled start_date_time
      end_date_time local_time_zone_id schedule_config_type interval
      weekdays times
    ([Effect.resolveWorkspace, Effect.resolveItem, Effect.apiPatch payload],
     .ok ())

/-- `run_on_demand_item_job` (lines 226-270): resolves workspace and item
(and the item type when not supplied), POSTs the on-demand run, and returns
the last segment of the response's `Location` header. -/
def run_on_demand_item_job (item_type : Option PyStr)
    (locationHeader : PyStr) : List Effect × PyStr :=
  let typeEffects : List Effect :=
    match item_type with
    | Option.none => [Effect.resolveItemType]
    | some _ => []
  ([Effect.resolveWorkspace, Effect.resolveItem] ++ typeEffects
     ++ [Effect.apiPostRunJob],
   locationIdFromHeader locationHeader)

/-- The `failureReason` object of a job-instance JSON record: a dict with an
optional `message` field. -/
structure FailureReason where
  message : Option PyStr
deriving DecidableEq, Repr

/-- A job-instance JSON record as the API returns it.  `failureReason` is
`Option (Option FailureReason)`: outer `none` means the key is absent,
`some none` means the key is present with JSON null, `some (some f)` means a
failure object is present. -/
structure JIJson where
  id : Option PyStr
  itemId : Option PyStr
  jobType : Option PyStr
  invokeType : Option PyStr
  status : Option PyStr
  rootActivityId : Option PyStr
  startTimeUtc : Option PyStr
  endTimeUtc : Option PyStr
  failureReason : Option (Option FailureReason)
deriving DecidableEq, Repr

/-- Lines 121 and 133 (and 579 and 591):
`fail = v.get("failureReason", {})` followed by
`fail.get("message") if fail is not None else ""`.  An absent key defaults
to the empty dict, whose `message` lookup yields Python `None`; a JSON-null
value makes `fail` `None`, so the `else` branch yields the empty string; a
present object yields its (possibly absent) `message` field. -/
def errorMessageCell (fr : Option (Option FailureReason)) : Option PyStr :=
  match fr with
  | Option.none => Option.none
  | some Option.none => some []
  | some (some f) => f.message

/-- One row of the job-instance table; every cell that can be Python `None`
is an `Option`. -/
structure JobRow where
  jobInstanceId : Option PyStr
  itemName : PyStr
  itemId : Option PyStr
  itemType : Option PyStr
  jobType : Option PyStr
  invokeType : Option PyStr
  status : Option PyStr
  rootActivityId : Option PyStr
  startTimeUtc : Option PyStr
  endTimeUtc : Option PyStr
  errorMessage : Option PyStr
deriving DecidableEq, Repr

/-- The semantic column types used by the dataframe helpers. -/
inductive DType
  | string
  | datetime
  | bool
  | intFillna
deriving DecidableEq, Repr

/-- The declared job-instance column schema (lines 95-107 and 559-571). -/
def jobInstanceColumns : List (String × DType) :=
  [("Job Instance Id", DType.string),
   ("Item Name", DType.string),
   ("Item Id", DType.string),
   ("Item Type", DType.string),
   ("Job Type", DType.string),
   ("Invoke Type", DType.string),
   ("Status", DType.string),
   ("Root Activity Id", DType.string),
   ("Start Time UTC", DType.datetime),
   ("End Time UTC", DType.string),
   ("Error Message", DType.string)]

/-- A tabular result: an ordered column schema plus rows. -/
structure JobTable where
  schema : List (String × DType)
  rows : List JobRow
deriving DecidableEq, Repr

/-- Modelled from the spec: `_create_dataframe` (the `buildTable`
collaborator of §6, not under `src/`) returns an empty tabular result
carrying the declared column schema and types. -/
def _create_dataframe (columns : List (String × DType)) : JobTable :=
  ⟨columns, []⟩

/-- Modelled from the spec: `_update_dataframe_datatypes` (the
`coerceColumnTypes` collaborator of §6, not under `src/`) coerces the
table's columns to the declared schema, keeping its rows. -/
def _update_dataframe_datatypes (t : JobTable)
    (columns : List (String × DType)) : JobTable :=
  ⟨columns, t.rows⟩

/-- The row built for one job-instance record (lines 122-134 and 580-592). -/
def mkJobRow (item_name : PyStr) (item_type : Option PyStr)
    (v : JIJson) : JobRow :=
  ⟨v.id, item_name, v.itemId, item_type, v.jobType, v.invokeType, v.status,
   v.rootActivityId, v.startTimeUtc, v.endTimeUtc,
   errorMessageCell v.failureReason⟩

/-- One page of the paginated job-instances response; `value` is `none`
when the `value` key is absent. -/
structure JIPage where
  value : Option (List JIJson)
deriving DecidableEq, Repr

/-- `list_item_job_instances` (lines 61-142): resolves the item type when
not supplied (lines 92-93, modelled by the `resolvedType` oracle), builds
the empty schema table, and returns it unchanged when the first page's
`value` is absent or empty (line 115); otherwise flattens every page's
records into rows. -/
def list_item_job_instances (item_name : PyStr) (item_type : Option PyStr)
    (resolvedType : PyStr) (responses : List JIPage) :
    Except PyError JobTable :=
  let effType : PyStr := item_type.getD resolvedType
  let df := _create_dataframe jobInstanceColumns
  match responses with
  | [] => .error .indexError
  | r0 :: _ =>
    if (r0.value.getD []).isEmpty then .ok df
    else
      let rows := (responses.map
        (fun r => (r.value.getD []).map (mkJobRow item_name (some effType)))).flatten
      let df2 := if rows.isEmpty then df else JobTable.mk jobInstanceColumns rows
      .ok (_update_dataframe_datatypes df2 jobInstanceColumns)

/-- `get_item_job_instance` (lines 524-595): no item-type resolution is
performed; the single row is built from the response record with the
caller-supplied `item_type` put in the `Item Type` cell unchanged. -/
def get_item_job_instance (item_name : PyStr) (item_type : Option PyStr)
    (v : JIJson) : JobTable :=
  let df := _create_dataframe jobInstanceColumns
  let row := mkJobRow item_name item_type v
  _update_dataframe_datatypes (JobTable.mk df.schema (df.rows ++ [row]))
    jobInstanceColumns

/-- Side effects of `import_notebook_from_web`, in the order performed. -/
inductive NbEffect
  | resolveWorkspace
  | fetchUrl (url : PyStr)
  | listItems
  | createNotebook
  | printInfoOverwriteNotSupported
deriving DecidableEq, Repr

/-- Python `s.replace(pat, repl)` for a non-empty pattern: replace every
non-overlapping occurrence, scanning left to right. -/
def replaceAll (pat repl : PyStr) (s : PyStr) : PyStr :=
  match s with
  | [] => []
  | c :: rest =>
    if !pat.isEmpty && pat.isPrefixOf (c :: rest) then
      repl ++ replaceAll pat repl (rest.drop (pat.length - 1))
    else
      c :: replaceAll pat repl rest
termination_by s.length
decreasing_by
  · simp only [List.length_cons, List.length_drop]
    omega
  · simp only [List.length_cons]
    omega

/-- `_notebooks.py` lines 143-149: a `https://github.com/` URL is rewritten
to `https://raw.githubusercontent.com/` with every `/blob/` replaced by
`/`; other URLs pass through unchanged. -/
def githubRawUrl (url : PyStr) : PyStr :=
  let starting_text : PyStr := "https://github.com/".toList
  if starting_text.isPrefixOf url then
    replaceAll "/blob/".toList "/".toList
      ("https://raw.githubusercontent.com/".toList
        ++ url.drop starting_text.length)
  else url

/-- `import_notebook_from_web` (lines 110-173): resolves the workspace,
rewrites GitHub blob URLs, fetches the notebook (failing on a non-200
status), lists existing notebooks of that name, then splits three ways:
no existing item ⇒ create; existing and `overwrite` ⇒ print an
informational notice only; existing and not `overwrite` ⇒ raise
an already-exists `ValueError`. -/
def import_notebook_from_web (overwrite : Bool) (url : PyStr)
    (fetchStatus : Nat) (existingCount : Nat) :
    List NbEffect × Except PyError Unit :=
  let url2 := githubRawUrl url
  if fetchStatus ≠ 200 then
    ([NbEffect.resolveWorkspace, NbEffect.fetchUrl url2],
     .error (.fabricHTTPError fetchStatus))
  else if existingCount = 0 then
    ([NbEffect.resolveWorkspace, NbEffect.fetchUrl url2, NbEffect.listItems,
      NbEffect.createNotebook], .ok ())
  else if overwrite then
    ([NbEffect.resolveWorkspace, NbEffect.fetchUrl url2, NbEffect.listItems,
      NbEffect.printInfoOverwriteNotSupported], .ok ())
  else
    ([NbEffect.resolveWorkspace, NbEffect.fetchUrl url2, NbEffect.listItems],
     .error .valueErrorAlreadyExists)

theorem splitOnChar_ne_nil (c : Char) : ∀ s : PyStr, splitOnChar c s ≠ []
  | [] => by simp [splitOnChar]
  | x :: xs => by
    simp only [splitOnChar]
    split
    · simp
    · split <;> simp

theorem splitOnChar_of_not_mem (c : Char) :
    ∀ s : PyStr, c ∉ s → splitOnChar c s = [s]
  | [], _ => rfl
  | x :: xs, h => by
    have hx : x ≠ c := fun he => h (he ▸ List.mem_cons_self x xs)
    have hxs : c ∉ xs := fun hm => h (List.mem_cons_of_mem x hm)
    simp only [splitOnChar, splitOnChar_of_not_mem c xs hxs, if_neg hx]

theorem two_le_length_splitOnChar (c : Char) :
    ∀ s : PyStr, c ∈ s → 2 ≤ (splitOnChar c s).length
  | x :: xs, h => by
    simp only [splitOnChar]
    cases hr : splitOnChar c xs with
    | nil => exact absurd hr (splitOnChar_ne_nil c xs)
    | cons hd tl =>
      by_cases hx : x = c
      · simp [hx]
      · have hm : c ∈ xs := by
          rcases List.mem_cons.mp h with h1 | h2
          · exact absurd h1.symm hx
          · exact h2
        have := two_le_length_splitOnChar c xs hm
        rw [hr] at this
        simpa [hx] using this

theorem splitOnChar_getLast?_append (c : Char) (ys : PyStr) (hy : c ∉ ys) :
    ∀ xs : PyStr, (splitOnChar c (xs ++ c :: ys)).getLast? = some ys
  | [] => by
    simp only [List.nil_append, splitOnChar, splitOnChar_of_not_mem c ys hy,
      if_pos rfl]
    rfl
  | x :: xs => by
    have ih := splitOnChar_getLast?_append c ys hy xs
    have hlen := two_le_length_splitOnChar c (xs ++ c :: ys) (by simp)
    cases hr : splitOnChar c (xs ++ c :: ys) with
    | nil => exact absurd hr (splitOnChar_ne_nil c _)
    | cons hd tl =>
      rw [hr] at ih hlen
      cases tl with
      | nil => simp at hlen
      | cons t1 t2 =>
        have hgoal : splitOnChar c ((x :: xs) ++ c :: ys)
            = if x = c then [] :: hd :: t1 :: t2 else (x :: hd) :: t1 :: t2 := by
          simp only [List.cons_append, splitOnChar, List.append_eq, hr]
        rw [hgoal]
        by_cases hx : x = c
        · rw [if_pos hx, List.getLast?_cons_cons]
          exact ih
        · rw [if_neg hx, List.getLast?_cons_cons]
          rw [List.getLast?_cons_cons] at ih
          exact ih

theorem locationIdFromHeader_eq (pre suffix : PyStr) (h : '/' ∉ suffix) :
    locationIdFromHeader (pre ++ '/' :: suffix) = suffix := by
  unfold locationIdFromHeader
  rw [List.getLastD_eq_getLast?, splitOnChar_getLast?_append '/' suffix h pre]
  rfl

set_option maxRecDepth 40000

/-- A sample job-instance record used by concrete witnesses, parameterised
by its `failureReason` field. -/
def jiSample (fr : Option (Option FailureReason)) : JIJson :=
  ⟨some "j1".toList, some "i1".toList, some "Pipeline".toList,
   some "OnDemand".toList, some "Completed".toList, some "r1".toList,
   some "2025-01-01".toList, some "2025-01-02".toList, fr⟩

/-- A 101-element hh:mm times list, over the documented 100-element limit. -/
def times101 : PyTimes := PyTimes.list (List.replicate 101 "08:00".toList)

/-- C1 counterexample: a job-instance record whose `failureReason` key is
absent yields an `Error Message` cell of Python `None`, not the empty
string, because the absent key defaults to `{}` and `{}.get("message")` is
`None`. -/
theorem c1_absent_failure_not_empty_string :
    ((get_item_job_instance "nb".toList Option.none
        (jiSample Option.none)).rows.map JobRow.errorMessage)
      ≠ [some ([] : List Char)] := by decide

/-- C1 (amended): a JSON-null `failureReason` maps `Error Message` to the
empty string; an absent `failureReason` maps it to null (`None`); a present
failure object maps it to its `message` field — in both
`get_item_job_instance` and `list_item_job_instances`. -/
theorem c1_error_message_by_failure_shape (n : PyStr) (it : Option PyStr)
    (rt : PyStr) (a b c d e f g h : Option PyStr) (fr : FailureReason) :
    ((get_item_job_instance n it
        (JIJson.mk a b c d e f g h (some Option.none))).rows.map
          JobRow.errorMessage = [some []]) ∧
    ((get_item_job_instance n it
        (JIJson.mk a b c d e f g h Option.none)).rows.map
          JobRow.errorMessage = [Option.none]) ∧
    ((get_item_job_instance n it
        (JIJson.mk a b c d e f g h (some (some fr)))).rows.map
          JobRow.errorMessage = [fr.message]) ∧
    ((list_item_job_instances n it rt
        [JIPage.mk (some [JIJson.mk a b c d e f g h (some Option.none)])]).map
          (fun t => t.rows.map JobRow.errorMessage) = .ok [some []]) :=
  ⟨rfl, rfl, rfl, rfl⟩

/-- C2: with `interval` omitted (`None`, as for daily and weekly
schedules), both `create_item_schedule` and `update_item_schedule` raise a
`TypeError` from `None > 5270400` (operator precedence groups the check as
`(interval is not None and interval < 1) or (interval > 5270400)`) instead
of proceeding; supplied intervals are accepted exactly on [1, 5270400]. -/
theorem c2_interval_none_raises_type_error :
    create_item_schedule "Daily".toList true Option.none Option.none
        Option.none Option.none Option.none (PyTimes.list ["08:00".toList])
        "h/s1".toList
      = ([], .error .typeErrorNoneComparison) ∧
    update_item_schedule "Daily".toList true Option.none Option.none
        Option.none Option.none Option.none (PyTimes.list ["08:00".toList])
      = ([], .error .typeErrorNoneComparison) ∧
    intervalCheck (some 0) = some .valueErrorInterval ∧
    intervalCheck (some 5270401) = some .valueErrorInterval ∧
    intervalCheck (some 1) = Option.none ∧
    intervalCheck (some 5270400) = Option.none :=
  ⟨rfl, rfl, by decide, by decide, by decide, by decide⟩

/-- C3: a 101-element list of hh:mm times is NOT rejected: the check counts
`.`-separated chunks of `str(times)`, which is 1 for hh:mm strings, so
`create_item_schedule` and `update_item_schedule` proceed to name
resolution and the network call. -/
theorem c3_times_overflow_not_rejected :
    timesCheckFires times101 = false ∧
    create_item_schedule "Daily".toList true Option.none Option.none
        Option.none (some 60) Option.none times101 "h/s1".toList
      = ([Effect.resolveWorkspace, Effect.resolveItem,
          Effect.apiPost (__create_item_schedule_payload true Option.none
            Option.none Option.none "Daily".toList (some 60) Option.none
            times101)],
         .ok "s1".toList) ∧
    update_item_schedule "Daily".toList true Option.none Option.none
        Option.none (some 60) Option.none times101
      = ([Effect.resolveWorkspace, Effect.resolveItem,
          Effect.apiPatch (__create_item_schedule_payload true Option.none
            Option.none Option.none "Daily".toList (some 60) Option.none
            times101)],
         .ok ()) :=
  ⟨by decide, rfl, rfl⟩

/-- C4: for each recognised `schedule_config_type` (case-insensitive), the
configuration object of the built payload holds exactly the fields of that
variant, in insertion order: Cron has the base fields plus `interval`;
Daily has the base fields plus `times` rendered as text; Weekly has the
base fields plus raw `times` plus `weekdays`. -/
theorem c4_payload_fields_by_variant (en : Bool)
    (sdt edt tz : Option PyStr) (sct : PyStr) (iv : Option Int)
    (wd : Option PyStr) (tm : PyTimes) :
    (pyLower sct = "cron".toList →
      (__create_item_schedule_payload en sdt edt tz sct iv wd tm).configuration
        = [("startDateTime", optStr sdt), ("endDateTime", optStr edt),
           ("localTimeZoneId", optStr tz), ("type", JVal.s sct),
           ("interval", optInt iv)]) ∧
    (pyLower sct = "daily".toList →
      (__create_item_schedule_payload en sdt edt tz sct iv wd tm).configuration
        = [("startDateTime", optStr sdt), ("endDateTime", optStr edt),
           ("localTimeZoneId", optStr tz), ("type", JVal.s sct),
           ("times", JVal.s (pyStrOfTimes tm))]) ∧
    (pyLower sct = "weekly".toList →
      (__create_item_schedule_payload en sdt edt tz sct iv wd tm).configuration
        = [("startDateTime", optStr sdt), ("endDateTime", optStr edt),
           ("localTimeZoneId", optStr tz), ("type", JVal.s sct),
           ("times", timesToJVal tm), ("weekdays", optStr wd)]) := by
  refine ⟨fun h => ?_, fun h => ?_, fun h => ?_⟩
  · simp only [__create_item_schedule_payload]
    rw [h, if_pos rfl]
    rfl
  · simp only [__create_item_schedule_payload]
    rw [h, if_neg (by decide), if_pos rfl]
    rfl
  · simp only [__create_item_schedule_payload]
    rw [h, if_neg (by decide), if_neg (by decide), if_pos rfl]
    rfl

/-- C4 witness: the three variants evaluated at concrete arguments. -/
theorem c4_witness :
    ((__create_item_schedule_payload true Option.none Option.none Option.none
        "Cron".toList (some 5) Option.none PyTimes.none).configuration
      = [("startDateTime", optStr Option.none),
         ("endDateTime", optStr Option.none),
         ("localTimeZoneId", optStr Option.none),
         ("type", JVal.s "Cron".toList),
         ("interval", optInt (some 5))]) ∧
    ((__create_item_schedule_payload true Option.none Option.none Option.none
        "Daily".toList Option.none Option.none
        (PyTimes.list ["08:00".toList])).configuration
      = [("startDateTime", optStr Option.none),
         ("endDateTime", optStr Option.none),
         ("localTimeZoneId", optStr Option.none),
         ("type", JVal.s "Daily".toList),
         ("times", JVal.s (pyStrOfTimes (PyTimes.list ["08:00".toList])))]) ∧
    ((__create_item_schedule_payload true Option.none Option.none Option.none
        "Weekly".toList Option.none (some "Monday".toList)
        (PyTimes.list ["08:00".toList])).configuration
      = [("startDateTime", optStr Option.none),
         ("endDateTime", optStr Option.none),
         ("localTimeZoneId", optStr Option.none),
         ("type", JVal.s "Weekly".toList),
         ("times", timesToJVal (PyTimes.list ["08:00".toList])),
         ("weekdays", optStr (some "Monday".toList))]) :=
  ⟨(c4_payload_fields_by_variant true Option.none Option.none Option.none
      "Cron".toList (some 5) Option.none PyTimes.none).1 (by decide),
   (c4_payload_fields_by_variant true Option.none Option.none Option.none
      "Daily".toList Option.none Option.none
      (PyTimes.list ["08:00".toList])).2.1 (by decide),
   (c4_payload_fields_by_variant true Option.none Option.none Option.none
      "Weekly".toList Option.none (some "Monday".toList)
      (PyTimes.list ["08:00".toList])).2.2 (by decide)⟩

/-- C5: an unrecognised `schedule_config_type` (lower-cased form outside
cron/daily/weekly) makes both `create_item_schedule` and
`update_item_schedule` raise the invalid-argument error with an empty
effect list: no name resolution and no network call has happened. -/
theorem c5_invalid_type_errors_before_any_effect (sct : PyStr) (en : Bool)
    (sdt edt tz : Option PyStr) (iv : Option Int) (wd : Option PyStr)
    (tm : PyTimes) (hdr : PyStr)
    (h1 : pyLower sct ≠ "cron".toList) (h2 : pyLower sct ≠ "daily".toList)
    (h3 : pyLower sct ≠ "weekly".toList) :
    create_item_schedule sct en sdt edt tz iv wd tm hdr
      = ([], .error .valueErrorInvalidType) ∧
    update_item_schedule sct en sdt edt tz iv wd tm
      = ([], .error .valueErrorInvalidType) := by
  have hv : isValidScheduleType sct = false := by
    simp only [isValidScheduleType, Bool.or_eq_false_iff,
      beq_eq_false_iff_ne, ne_eq]
    exact ⟨⟨h1, h2⟩, h3⟩
  have hs : scheduleValidate sct iv tm = some .valueErrorInvalidType := by
    simp [scheduleValidate, hv]
  constructor
  · simp [create_item_schedule, hs]
  · simp [update_item_schedule, hs]

/-- C5 witness: the unrecognised type "Monthly" is rejected with no
effects performed. -/
theorem c5_witness :
    create_item_schedule "Monthly".toList true Option.none Option.none
        Option.none (some 5) Option.none PyTimes.none "h/s1".toList
      = ([], .error .valueErrorInvalidType) ∧
    update_item_schedule "Monthly".toList true Option.none Option.none
        Option.none (some 5) Option.none PyTimes.none
      = ([], .error .valueErrorInvalidType) :=
  c5_invalid_type_errors_before_any_effect "Monthly".toList true Option.none
    Option.none Option.none (some 5) Option.none PyTimes.none "h/s1".toList
    (by decide) (by decide) (by decide)

/-- C6: with a successful fetch, `import_notebook_from_web` splits three
ways on the target name: absent ⇒ create the notebook; present with
`overwrite` ⇒ only an informational notice and no mutating effect; present
without `overwrite` ⇒ already-exists error. -/
theorem c6_import_three_way_split (url : PyStr) (count : Nat) (ow : Bool) :
    (count = 0 →
      import_notebook_from_web ow url 200 count
        = ([NbEffect.resolveWorkspace, NbEffect.fetchUrl (githubRawUrl url),
            NbEffect.listItems, NbEffect.createNotebook], .ok ())) ∧
    (0 < count → ow = true →
      import_notebook_from_web ow url 200 count
        = ([NbEffect.resolveWorkspace, NbEffect.fetchUrl (githubRawUrl url),
            NbEffect.listItems, NbEffect.printInfoOverwriteNotSupported],
           .ok ()) ∧
      NbEffect.createNotebook ∉ (import_notebook_from_web ow url 200 count).1) ∧
    (0 < count → ow = false →
      import_notebook_from_web ow url 200 count
        = ([NbEffect.resolveWorkspace, NbEffect.fetchUrl (githubRawUrl url),
            NbEffect.listItems], .error .valueErrorAlreadyExists)) := by
  refine ⟨fun h0 => ?_, fun hc how => ?_, fun hc how => ?_⟩
  · simp [import_notebook_from_web, h0]
  · have hne : count ≠ 0 := Nat.pos_iff_ne_zero.mp hc
    constructor
    · simp [import_notebook_from_web, hne, how]
    · simp [import_notebook_from_web, hne, how]
  · have hne : count ≠ 0 := Nat.pos_iff_ne_zero.mp hc
    simp [import_notebook_from_web, hne, how]

/-- C6 witness: the three branches at a concrete URL and item counts. -/
theorem c6_witness :
    import_notebook_from_web false "u".toList 200 0
      = ([NbEffect.resolveWorkspace, NbEffect.fetchUrl (githubRawUrl "u".toList),
          NbEffect.listItems, NbEffect.createNotebook], .ok ()) ∧
    import_notebook_from_web true "u".toList 200 1
      = ([NbEffect.resolveWorkspace, NbEffect.fetchUrl (githubRawUrl "u".toList),
          NbEffect.listItems, NbEffect.printInfoOverwriteNotSupported],
         .ok ()) ∧
    import_notebook_from_web false "u".toList 200 1
      = ([NbEffect.resolveWorkspace, NbEffect.fetchUrl (githubRawUrl "u".toList),
          NbEffect.listItems], .error .valueErrorAlreadyExists) :=
  ⟨(c6_import_three_way_split "u".toList 0 false).1 rfl,
   ((c6_import_three_way_split "u".toList 1 true).2.1 (by decide) rfl).1,
   (c6_import_three_way_split "u".toList 1 false).2.2 (by decide) rfl⟩

/-- C7: the identifier returned by `run_on_demand_item_job`, and by
`create_item_schedule` whenever it succeeds, is the trailing segment of the
`Location` response header after its last slash. -/
theorem c7_location_trailing_segment (pre suffix : PyStr)
    (h : '/' ∉ suffix) :
    (∀ it, (run_on_demand_item_job it (pre ++ '/' :: suffix)).2 = suffix) ∧
    (∀ sct en sdt edt tz iv wd tm r,
      (create_item_schedule sct en sdt edt tz iv wd tm
          (pre ++ '/' :: suffix)).2 = .ok r → r = suffix) := by
  constructor
  · intro it
    simp [run_on_demand_item_job, locationIdFromHeader_eq pre suffix h]
  · intro sct en sdt edt tz iv wd tm r hr
    unfold create_item_schedule at hr
    cases hs : scheduleValidate sct iv tm with
    | some e =>
      rw [hs] at hr
      simp at hr
    | none =>
      rw [hs] at hr
      simp [locationIdFromHeader_eq pre suffix h] at hr
      exact hr.symm

/-- C7 witness: a `Location` header ending in `/abc-123` yields the
identifier `abc-123`. -/
theorem c7_witness :
    (run_on_demand_item_job (some "Notebook".toList)
        "v1/w/items/i/jobs/instances/abc-123".toList).2 = "abc-123".toList :=
  (c7_location_trailing_segment "v1/w/items/i/jobs/instances".toList
      "abc-123".toList (by decide)).1 (some "Notebook".toList)

/-- C8: a paginated response whose `value` array is empty yields a table
with zero rows but the full declared column set with declared types, and
no error. -/
theorem c8_empty_value_gives_full_schema_table (n : PyStr)
    (it : Option PyStr) (rt : PyStr) :
    list_item_job_instances n it rt [JIPage.mk (some [])]
      = .ok (JobTable.mk
          [("Job Instance Id", DType.string), ("Item Name", DType.string),
           ("Item Id", DType.string), ("Item Type", DType.string),
           ("Job Type", DType.string), ("Invoke Type", DType.string),
           ("Status", DType.string), ("Root Activity Id", DType.string),
           ("Start Time UTC", DType.datetime), ("End Time UTC", DType.string),
           ("Error Message", DType.string)] []) := rfl

/-- C9: `list_item_job_instances` decides emptiness from the first page
only: a missing or empty first-page `value` returns the empty table
whatever the later pages hold, and when the first page is non-empty the
rows are the concatenation over all pages. -/
theorem c9_first_page_decides_emptiness (n : PyStr) (it : Option PyStr)
    (rt : PyStr) (p0 : JIPage) (rest : List JIPage) :
    ((p0.value = Option.none ∨ p0.value = some []) →
      list_item_job_instances n it rt (p0 :: rest)
        = .ok (JobTable.mk jobInstanceColumns [])) ∧
    (∀ v vs, p0.value = some (v :: vs) →
      list_item_job_instances n it rt (p0 :: rest)
        = .ok (JobTable.mk jobInstanceColumns
            (((p0 :: rest).map (fun r => (r.value.getD []).map
              (mkJobRow n (some (it.getD rt))))).flatten))) := by
  constructor
  · intro h
    rcases h with h | h <;>
      simp [list_item_job_instances, h, _create_dataframe]
  · intro v vs h
    simp [list_item_job_instances, h, _update_dataframe_datatypes,
      _create_dataframe]

/-- C9 witness: an empty first page hides a populated second page; a
populated first page makes rows from both pages appear. -/
theorem c9_witness :
    list_item_job_instances "nb".toList Option.none "Notebook".toList
        [JIPage.mk (some []), JIPage.mk (some [jiSample Option.none])]
      = .ok (JobTable.mk jobInstanceColumns []) ∧
    list_item_job_instances "nb".toList Option.none "Notebook".toList
        [JIPage.mk (some [jiSample Option.none]),
         JIPage.mk (some [jiSample (some Option.none)])]
      = .ok (JobTable.mk jobInstanceColumns
          ((([JIPage.mk (some [jiSample Option.none]),
              JIPage.mk (some [jiSample (some Option.none)])]).map
            (fun r => (r.value.getD []).map
              (mkJobRow "nb".toList (some "Notebook".toList)))).flatten)) :=
  ⟨(c9_first_page_decides_emptiness "nb".toList Option.none
      "Notebook".toList (JIPage.mk (some []))
      [JIPage.mk (some [jiSample Option.none])]).1 (Or.inr rfl),
   (c9_first_page_decides_emptiness "nb".toList Option.none
      "Notebook".toList (JIPage.mk (some [jiSample Option.none]))
      [JIPage.mk (some [jiSample (some Option.none)])]).2
     (jiSample Option.none) [] rfl⟩

/-- Every row assembled by the page-flattening loop of
`list_item_job_instances` carries the item type it was built with. -/
theorem itemType_of_mem_flatten (n rt : PyStr) (pages : List JIPage)
    (row : JobRow) :
    row ∈ (pages.map (fun r => (r.value.getD []).map
      (mkJobRow n (some rt)))).flatten → row.itemType = some rt := by
  intro h
  rcases List.mem_flatten.mp h with ⟨l, hlmem, hrl⟩
  rcases List.mem_map.mp hlmem with ⟨p, hp, hpl⟩
  rw [← hpl] at hrl
  rcases List.mem_map.mp hrl with ⟨w, hw, hwr⟩
  rw [← hwr]
  rfl

/-- C10: `get_item_job_instance` never resolves the item type: its single
row's `Item Type` cell is exactly the caller-supplied argument (hence null
when omitted), whereas `list_item_job_instances` with the argument omitted
fills every row with the resolved type. -/
theorem c10_item_type_passthrough (n : PyStr) (it : Option PyStr)
    (rt : PyStr) (v : JIJson) (pages : List JIPage) (t : JobTable) :
    ((get_item_job_instance n it v).rows.map JobRow.itemType = [it]) ∧
    (list_item_job_instances n Option.none rt pages = .ok t →
      ∀ row ∈ t.rows, row.itemType = some rt) := by
  constructor
  · rfl
  · intro hl row hrow
    cases pages with
    | nil => simp [list_item_job_instances] at hl
    | cons p0 rest =>
      by_cases hemp : (p0.value.getD []).isEmpty = true
      · simp [list_item_job_instances, hemp, _create_dataframe] at hl
        rw [← hl] at hrow
        simp at hrow
      · simp only [list_item_job_instances, _update_dataframe_datatypes,
          _create_dataframe] at hl
        rw [if_neg hemp] at hl
        split at hl
        · simp only [Except.ok.injEq] at hl
          rw [← hl] at hrow
          simp at hrow
        · simp only [Except.ok.injEq] at hl
          rw [← hl] at hrow
          exact itemType_of_mem_flatten n (Option.none.getD rt) (p0 :: rest)
            row hrow

/-- C10 witness: a concrete list call with the item-type argument omitted
resolves every row's type, here to "Notebook". -/
theorem c10_witness :
    ∀ row ∈ (JobTable.mk jobInstanceColumns
        [mkJobRow "nb".toList (some "Notebook".toList)
          (jiSample (some Option.none))]).rows,
      row.itemType = some "Notebook".toList :=
  (c10_item_type_passthrough "nb".toList Option.none "Notebook".toList
      (jiSample (some Option.none))
      [JIPage.mk (some [jiSample (some Option.none)])]
      (JobTable.mk jobInstanceColumns
        [mkJobRow "nb".toList (some "Notebook".toList)
          (jiSample (some Option.none))])).2 rfl
